import Mathlib

/-!
Verification of the licensing/account backend (HWID locking, subscription
state machine, webhook processing, vouch moderation) against its
natural-language specification.

The definitions below are a shallow embedding of the JavaScript source:
  * `server.js`            — flat-file revision (client login, admin HWID
                             reset, Stripe webhook, cancel-subscription)
  * `src/unnamed/part_001` — Firestore revision with the full subscription
                             model (`createUser`, `/api/login`,
                             `handleCheckoutSessionCompleted`,
                             `handleSubscriptionUpdated/Deleted`,
                             `/api/stripe/cancel-subscription`,
                             admin `/api/reset-hwid`)
  * `src/unnamed/part_002` — Firestore revision with vouches and the
                             self-service `/api/reset-hwid` (7-day cooldown),
                             plus an older Firestore revision appended
  * `src/unnamed/part_000` — Discord bot (vouch submission and moderation:
                             `!vouch`, `!approve`, `!reject`, `!feature`)

JavaScript `null`/`undefined` field values are modelled as `Option.none`;
JavaScript truthiness tests on string-valued fields (`!user.hwid`,
`if (hwid)`) are modelled by `strTruthy`, which is false exactly on
`none` and on the empty string.
-/

namespace Cursed

/-- Truthiness of an optional string field, as JavaScript evaluates it:
`null`/`undefined` and the empty string are falsy, every other string is
truthy. -/
def strTruthy : Option String → Bool
  | none => false
  | some s => !(s == "")

/-- Embedded subscription record, following the shape written by
`createUser` in part_001 (lines 153-161).  The `hwid` and `lastHwidReset`
fields are the `subscription.hwid` / `subscription.lastHwidReset` paths
written by the self-service reset in part_002 (lines 520-523); they are
absent (`none`) at creation.  `lastHwidReset` is a millisecond timestamp
(Firestore `Timestamp` compared against `Date.now()`); the other
timestamps are ISO strings. -/
structure Subscription where
  status : String
  package : Option String
  stripeCustomerId : Option String
  stripeSubscriptionId : Option String
  currentPeriodEnd : Option String
  activatedAt : Option String
  cancelledAt : Option String
  hwid : Option String
  lastHwidReset : Option Int
deriving Repr, DecidableEq

/-- User statistics sub-record (part_001 `createUser`, lines 163-167;
`accountAge` is computed dynamically and never stored, so it is omitted). -/
structure Stats where
  totalLogins : Nat
  lastLoginDate : String
deriving Repr, DecidableEq

/-- Embedded account record (part_001 `createUser`, lines 143-172).
Fields such as the document id live in the store key, not the record. -/
structure User where
  username : String
  password : String
  createdAt : String
  lastLogin : String
  hwid : Option String
  hwidLockedAt : Option String
  subscription : Option Subscription
  stats : Stats
deriving Repr, DecidableEq

/-- A subscription map with every field absent, as produced by a Firestore
dotted-path update on a document whose `subscription` map does not exist
yet. -/
def emptySub : Subscription :=
  { status := "", package := none, stripeCustomerId := none,
    stripeSubscriptionId := none, currentPeriodEnd := none,
    activatedAt := none, cancelledAt := none, hwid := none,
    lastHwidReset := none }

/-- The license gate of the client login (part_001 line 220):
`!user.subscription || user.subscription.status !== 'active'` is the
negation of this predicate. -/
def subIsActive : Option Subscription → Bool
  | none => false
  | some s => s.status == "active"

/-- Outcome of the client login endpoint `/api/login` (part_001
lines 192-266). -/
inductive LoginResult
  | missingFields
  | invalidCredentials
  | noActiveLicense
  | hardwareMismatch
  | success
deriving Repr, DecidableEq

/-- HTTP status code attached to each login outcome in part_001
(400 / 401 / 403 / 403 / 200). -/
def statusOf : LoginResult → Nat
  | .missingFields => 400
  | .invalidCredentials => 401
  | .noActiveLicense => 403
  | .hardwareMismatch => 403
  | .success => 200

/-- Core of the client login `/api/login` (part_001 lines 212-257), after
the user has been looked up: password check, license gate, HWID mismatch
check, first-use HWID bind, and the lastLogin/stats update on success.
Returns the outcome and the (possibly updated) account. -/
def loginCore (u : User) (password hwid now : String) : LoginResult × User :=
  if u.password != password then
    (.invalidCredentials, u)
  else if !(subIsActive u.subscription) then
    (.noActiveLicense, u)
  else if strTruthy u.hwid && u.hwid != some hwid then
    (.hardwareMismatch, u)
  else
    let u1 :=
      if !(strTruthy u.hwid) then
        { u with hwid := some hwid, hwidLockedAt := some now }
      else u
    (.success,
      { u1 with lastLogin := now,
                stats := { totalLogins := u1.stats.totalLogins + 1,
                           lastLoginDate := now } })

/-- The user store: Firestore `users` collection as an association list of
document id and record. -/
abbrev Store := List (String × User)

/-- Lookup by username (part_001 lines 129-135): a Firestore
`where('username', '==', username)` query, i.e. exact string equality on
the stored field, taking the first match. -/
def getUserByUsername (store : Store) (username : String) :
    Option (String × User) :=
  store.find? (fun p => p.2.username == username)

/-- Replace the record stored under a document id (the effect of
`usersCollection.doc(uid).update(...)` once the merged record has been
computed). -/
def updateStore (store : Store) (uid : String) (u : User) : Store :=
  store.map (fun p => if p.1 == uid then (uid, u) else p)

/-- Full `/api/login` route (part_001 lines 192-266): field validation
(400), lookup by username (401 when absent), then `loginCore`; the store
is written only on the success path. -/
def apiLogin (store : Store) (username password hwid now : String) :
    LoginResult × Store :=
  if username == "" || password == "" || hwid == "" then
    (.missingFields, store)
  else
    match getUserByUsername store username with
    | none => (.invalidCredentials, store)
    | some (uid, u) =>
      let r := loginCore u password hwid now
      (r.1, if r.1 == .success then updateStore store uid r.2 else store)

/-- JavaScript's `toLowerCase()` as character-wise lower-casing of the
string's character list (ASCII case folding, which covers every username
comparison in the source). -/
def jsToLower (s : String) : String :=
  ⟨s.data.map Char.toLower⟩

/-- The case-insensitive username-uniqueness check of the flat-file
signup (server.js lines 209-211):
`users.some(u => u.username.toLowerCase() === username.toLowerCase())`. -/
def usernameExistsCI (users : List User) (username : String) : Bool :=
  users.any (fun u => jsToLower u.username == jsToLower username)

/-- Account created by signup in part_001 (`createUser`, lines 143-172):
unbound HWID, subscription status `"inactive"`, all payment references
null. -/
def createUser (username password now : String) : User :=
  { username := username, password := password,
    createdAt := now, lastLogin := now,
    hwid := none, hwidLockedAt := none,
    subscription := some
      { status := "inactive", package := none,
        stripeCustomerId := none, stripeSubscriptionId := none,
        currentPeriodEnd := none, activatedAt := none,
        cancelledAt := none, hwid := none, lastHwidReset := none },
    stats := { totalLogins := 1, lastLoginDate := now } }

/-- Subscription record written by the part_002 signup (lines 432-435). -/
structure SubV2 where
  status : String
  package : Option String
deriving Repr, DecidableEq

/-- Account record created by the part_002 signup (lines 426-438). -/
structure UserV2 where
  username : String
  email : String
  password : String
  subscription : SubV2
deriving Repr, DecidableEq

/-- Account created by signup in part_002 (lines 426-438): subscription
status `"none"`, no package, no HWID fields at all. -/
def createUserV2 (username email password : String) : UserV2 :=
  { username := username, email := email, password := password,
    subscription := { status := "none", package := none } }

/-- Outcome of the admin HWID reset `/api/reset-hwid` (part_001
lines 503-547). -/
inductive ResetResult
  | notLocked
  | ok
deriving Repr, DecidableEq

/-- Admin HWID reset on a found user (part_001 lines 523-533): fails when
the account is not hardware locked, otherwise sets both `hwid` and
`hwidLockedAt` to null. -/
def adminResetHwid (u : User) : ResetResult × User :=
  if !(strTruthy u.hwid) then
    (.notLocked, u)
  else
    (.ok, { u with hwid := none, hwidLockedAt := none })

/-- Outcome of the self-service HWID reset `/api/reset-hwid` (part_002
lines 487-530). -/
inductive SelfResetResult
  | noActiveSubscription
  | cooldownActive
  | ok
deriving Repr, DecidableEq

/-- Milliseconds in seven days: the self-service reset cooldown window
(part_002 lines 509-510 compare `(Date.now() - lastReset) / 86400000`
against 7). -/
def sevenDaysMs : Int := 7 * 86400000

/-- Self-service HWID reset on the session user (part_002 lines 499-525):
requires an active subscription, enforces the 7-day cooldown against
`subscription.lastHwidReset`, then writes `subscription.hwid = null` and
`subscription.lastHwidReset = now`.  Note the write targets the
`subscription.hwid` path; the top-level `hwid` and `hwidLockedAt` fields
are not touched. -/
def selfResetHwid (u : User) (nowMs : Int) : SelfResetResult × User :=
  match u.subscription with
  | none => (.noActiveSubscription, u)
  | some sub =>
    if sub.status != "active" then
      (.noActiveSubscription, u)
    else
      let sub2 : Subscription := { sub with hwid := none, lastHwidReset := some nowMs }
      match sub.lastHwidReset with
      | some lastReset =>
        if nowMs - lastReset < sevenDaysMs then
          (.cooldownActive, u)
        else
          (.ok, { u with subscription := some sub2 })
      | none =>
        (.ok, { u with subscription := some sub2 })

/-- Invariant claimed by the spec: an account's `hwid` is non-null exactly
when its `hwidLockedAt` is non-null. -/
def hwidInvariant (u : User) : Prop :=
  u.hwid ≠ none ↔ u.hwidLockedAt ≠ none

instance (u : User) : Decidable (hwidInvariant u) := by
  unfold hwidInvariant; infer_instance

/-- Data carried by a `checkout.session.completed` event as the handler
reads it (part_001 lines 670-707): `session.metadata.userId`,
`session.metadata.packageType`, `session.customer`,
`session.subscription`. -/
structure CheckoutSession where
  userId : Option String
  packageType : Option String
  customer : Option String
  subscription : Option String
deriving Repr, DecidableEq

/-- Merge of the `updates` object built by `handleCheckoutSessionCompleted`
(part_001 lines 685-707) into a subscription map: status, package,
activatedAt and customer id are always set; a lifetime purchase nulls
`currentPeriodEnd`; otherwise the subscription id is stored and
`currentPeriodEnd` is set from the Stripe lookup (`retrieved`) when the
lookup succeeds, and left untouched when it throws (the caught branch) or
when the session carries no subscription id. -/
def checkoutSub (sess : CheckoutSession) (retrieved : Option String)
    (now : String) (sub : Subscription) : Subscription :=
  if sess.packageType == some "lifetime" then
    { sub with
      status := "active", package := sess.packageType,
      activatedAt := some now, stripeCustomerId := sess.customer,
      currentPeriodEnd := none }
  else
    { sub with
      status := "active", package := sess.packageType,
      activatedAt := some now, stripeCustomerId := sess.customer,
      stripeSubscriptionId := sess.subscription,
      currentPeriodEnd :=
        if strTruthy sess.subscription then
          match retrieved with
          | some pe => some pe
          | none => sub.currentPeriodEnd
        else sub.currentPeriodEnd }

/-- Effect of `handleCheckoutSessionCompleted`'s `updateUser` call on the
targeted account (part_001 line 712): the dotted-path update merges
`checkoutSub` into the account's subscription map (creating it when
absent). -/
def applyCheckoutUpdates (sess : CheckoutSession) (retrieved : Option String)
    (now : String) (u : User) : User :=
  let sub2 := checkoutSub sess retrieved now (u.subscription.getD emptySub)
  { u with subscription := some sub2 }

/-- Effect of `handleSubscriptionUpdated` on the account found by customer
id (part_001 lines 736-741): stores the processor's status and period end
verbatim. -/
def applySubscriptionUpdated (newStatus periodEnd : String) (u : User) :
    User :=
  let sub := u.subscription.getD emptySub
  let sub2 : Subscription :=
    { sub with status := newStatus, currentPeriodEnd := some periodEnd }
  { u with subscription := some sub2 }

/-- Effect of `handleSubscriptionDeleted` on the account found by customer
id (part_001 lines 760-763): status becomes cancelled and `cancelledAt` is
stamped. -/
def applySubscriptionDeleted (now : String) (u : User) : User :=
  let sub := u.subscription.getD emptySub
  let sub2 : Subscription :=
    { sub with status := "cancelled", cancelledAt := some now }
  { u with subscription := some sub2 }

/-- Outcome of `/api/stripe/cancel-subscription` (part_001 lines 828-868)
on a found session user. -/
inductive CancelResult
  | noSubscriptionId
  | ok
deriving Repr, DecidableEq

/-- Cancel-subscription route of part_001 (lines 828-868) acting on the
session user: fails with 400 when `user.subscription?.stripeSubscriptionId`
is not set (no package check is performed), otherwise asks Stripe to cancel
at period end and stores `status = 'cancelled'` and `cancelledAt`. -/
def cancelSubscription (u : User) (now : String) : CancelResult × User :=
  match u.subscription with
  | none => (.noSubscriptionId, u)
  | some sub =>
    if !(strTruthy sub.stripeSubscriptionId) then
      (.noSubscriptionId, u)
    else
      let sub2 : Subscription :=
        { sub with status := "cancelled", cancelledAt := some now }
      (.ok, { u with subscription := some sub2 })

/-- Parsed webhook event (part_001 lines 71-99): the five recognized
Stripe event types plus the acknowledged-but-unhandled default.  Each
constructor carries exactly the payload fields its handler reads. -/
inductive WebhookEvent
  | checkoutSessionCompleted (sess : CheckoutSession)
  | customerSubscriptionUpdated (customer status periodEnd : String)
  | customerSubscriptionDeleted (customer : String)
  | invoicePaymentSucceeded (invoiceId : String)
  | invoicePaymentFailed (customer : String)
  | other (eventType : String)
deriving Repr, DecidableEq

/-- Firestore query `where('subscription.stripeCustomerId', '==', cid)`
(part_001 lines 724-727): first document whose stored customer id equals
the event's customer id. -/
def findByCustomerId (store : Store) (cid : String) :
    Option (String × User) :=
  store.find? (fun p =>
    match p.2.subscription with
    | some sub => sub.stripeCustomerId == some cid
    | none => false)

/-- Dispatch of a verified, parsed event (part_001 lines 71-99 and the
handler bodies).  `Except.error` models a handler throwing (the checkout
handler's `updateUser` throws when the target document does not exist,
part_001 lines 711-717); lookups by customer id that find no account
return without error (part_001 lines 729-732). -/
def dispatchEvent (retrieved : Option String) (now : String) :
    WebhookEvent → Store → Except String Store
  | .checkoutSessionCompleted sess, store =>
    if !(strTruthy sess.userId) then .ok store
    else
      match sess.userId with
      | none => .ok store
      | some uid =>
        match store.find? (fun p => p.1 == uid) with
        | none => .error "update failed: no such document"
        | some (_, u) =>
          .ok (updateStore store uid (applyCheckoutUpdates sess retrieved now u))
  | .customerSubscriptionUpdated cid st pe, store =>
    match findByCustomerId store cid with
    | none => .ok store
    | some (uid, u) =>
      .ok (updateStore store uid (applySubscriptionUpdated st pe u))
  | .customerSubscriptionDeleted cid, store =>
    match findByCustomerId store cid with
    | none => .ok store
    | some (uid, u) =>
      .ok (updateStore store uid (applySubscriptionDeleted now u))
  | .invoicePaymentSucceeded _, store => .ok store
  | .invoicePaymentFailed _, store => .ok store
  | .other _, store => .ok store

/-- Stripe's `webhooks.constructEvent(rawBody, sig, secret)` as the route
uses it (part_001 lines 52-65): it verifies the signature over the exact
raw received bytes and only then parses the payload; a signature failure
throws before any parsing happens.  The verification and parsing functions
are parameters (they live in the Stripe SDK, outside this repository). -/
def constructEvent (verify : String → String → String → Bool)
    (parse : String → Option WebhookEvent)
    (rawBody sig secret : String) : Option WebhookEvent :=
  if verify rawBody sig secret then parse rawBody else none

/-- The `/api/stripe/webhook` route (part_001 lines 44-108): a
`constructEvent` failure is answered with status 400 before the store is
touched; a verified event is dispatched, answering 200, or 500 when the
handler throws (in which case the store is unchanged, since the only
throwing write is atomic). -/
def stripeWebhook (verify : String → String → String → Bool)
    (parse : String → Option WebhookEvent)
    (rawBody sig secret : String) (retrieved : Option String)
    (now : String) (store : Store) : Nat × Store :=
  match constructEvent verify parse rawBody sig secret with
  | none => (400, store)
  | some ev =>
    match dispatchEvent retrieved now ev store with
    | .ok store2 => (200, store2)
    | .error _ => (500, store)

/-- Vouch record as submitted by the `!vouch` command (part_000
lines 75-91; Discord display metadata such as avatars and server names is
omitted, as are the moderation-audit fields, none of which the commands
read). -/
structure Vouch where
  authorId : String
  targetUserId : String
  rating : Nat
  message : String
  approved : Bool
  featured : Bool
deriving Repr, DecidableEq

/-- Outcome of the `!feature` command (part_000 lines 225-267). -/
inductive FeatureResult
  | notFound
  | notApproved
  | toggled (newState : Bool)
deriving Repr, DecidableEq

/-- The `!feature` command on the fetched vouch document (part_000
lines 236-253): not-found when the document is missing, refusal when the
vouch is not approved (no write), otherwise the `featured` flag is
flipped. -/
def toggleFeatured (v : Option Vouch) : FeatureResult × Option Vouch :=
  match v with
  | none => (.notFound, none)
  | some vouch =>
    if !vouch.approved then
      (.notApproved, some vouch)
    else
      let ns := !vouch.featured
      (.toggled ns, some { vouch with featured := ns })

/-! Theorems -/

/-- The subscription of the sample licensed account used by the concrete
witnesses: an active monthly package with an external subscription id. -/
def boundSub : Subscription :=
  { status := "active", package := some "monthly",
    stripeCustomerId := some "cus_1",
    stripeSubscriptionId := some "sub_1",
    currentPeriodEnd := some "2024-02-01T00:00:00Z",
    activatedAt := some "2024-01-01T01:00:00Z", cancelledAt := none,
    hwid := none, lastHwidReset := none }

/-- A sample bound, licensed account used by the concrete witnesses. -/
def boundUser : User :=
  { username := "alice", password := "pw123456",
    createdAt := "2024-01-01T00:00:00Z", lastLogin := "2024-01-01T00:00:00Z",
    hwid := some "HWID-AAA", hwidLockedAt := some "2024-01-02T00:00:00Z",
    subscription := some boundSub,
    stats := { totalLogins := 3, lastLoginDate := "2024-01-02T00:00:00Z" } }

/-- A sample unbound, licensed account used by the concrete witnesses. -/
def unboundUser : User :=
  { boundUser with hwid := none, hwidLockedAt := none }

/-- An account whose subscription is cancelled but whose paid-through date
is still far in the future (the soft-cancel grace-period state). -/
def cancelledGraceUser : User :=
  let sub : Subscription :=
    { status := "cancelled", package := some "monthly",
      stripeCustomerId := some "cus_1", stripeSubscriptionId := some "sub_1",
      currentPeriodEnd := some "2099-01-01T00:00:00Z",
      activatedAt := some "2024-01-01T01:00:00Z",
      cancelledAt := some "2024-01-05T00:00:00Z",
      hwid := none, lastHwidReset := none }
  { unboundUser with subscription := some sub }

/-- An account that purchased a lifetime package after an earlier monthly
subscription: the lifetime checkout left the old external subscription id
in place (the handler never clears it). -/
def lifetimeLeftoverUser : User :=
  let sub : Subscription :=
    { status := "active", package := some "lifetime",
      stripeCustomerId := some "cus_9", stripeSubscriptionId := some "sub_9",
      currentPeriodEnd := none, activatedAt := some "t0", cancelledAt := none,
      hwid := none, lastHwidReset := none }
  { boundUser with subscription := some sub }

/-- A lifetime account with no external subscription id (the state a
lifetime checkout produces on a fresh account). -/
def lifetimeCleanUser : User :=
  let sub : Subscription :=
    { status := "active", package := some "lifetime",
      stripeCustomerId := some "cus_9", stripeSubscriptionId := none,
      currentPeriodEnd := none, activatedAt := some "t0", cancelledAt := none,
      hwid := none, lastHwidReset := none }
  { boundUser with subscription := some sub }

/-- The stored account used by the C7 counterexample; its username has an
upper-case letter. -/
def aliceUser : User :=
  { boundUser with username := "Alice" }

/-- C1: on the client login, the HWID binding is a three-case state
machine.  With valid credentials and an active license (the state in which
the binding code runs), and given that the stored hwid is never the empty
string (the route rejects an empty presented hwid with 400 before anything
is stored): an unbound account is admitted and bound to the presented
fingerprint with `hwidLockedAt` stamped; an account bound to exactly the
presented fingerprint is admitted with `hwid` and `hwidLockedAt`
unchanged; and any other stored fingerprint is denied with a
hardware-mismatch result and a completely unchanged account. -/
theorem C1_hwid_binding_state_machine (u : User) (pw hw now : String)
    (hpw : u.password = pw)
    (hsub : subIsActive u.subscription = true)
    (hstored : u.hwid ≠ some "") :
    (u.hwid = none →
      (loginCore u pw hw now).1 = .success ∧
      (loginCore u pw hw now).2.hwid = some hw ∧
      (loginCore u pw hw now).2.hwidLockedAt = some now) ∧
    (u.hwid = some hw →
      (loginCore u pw hw now).1 = .success ∧
      (loginCore u pw hw now).2.hwid = u.hwid ∧
      (loginCore u pw hw now).2.hwidLockedAt = u.hwidLockedAt) ∧
    (∀ h, u.hwid = some h → h ≠ hw →
      (loginCore u pw hw now).1 = .hardwareMismatch ∧
      (loginCore u pw hw now).2 = u) := by
  subst hpw
  refine ⟨?_, ?_, ?_⟩
  · intro hnone
    simp [loginCore, hsub, hnone, strTruthy]
  · intro hsome
    have hne : hw ≠ "" := by
      intro hcontra; exact hstored (hcontra ▸ hsome)
    simp [loginCore, hsub, hsome, strTruthy, hne]
  · intro h hsome hne
    have hne2 : h ≠ "" := by
      intro hcontra; exact hstored (hcontra ▸ hsome)
    simp [loginCore, hsub, hsome, strTruthy, hne2, hne]

/-- Concrete instantiation of the C1 state machine: binding a fresh
account, re-admitting the same fingerprint, and denying a different one. -/
theorem C1_hwid_binding_witness :
    ((loginCore unboundUser "pw123456" "HWID-AAA" "t9").1 = .success ∧
      (loginCore unboundUser "pw123456" "HWID-AAA" "t9").2.hwid = some "HWID-AAA" ∧
      (loginCore unboundUser "pw123456" "HWID-AAA" "t9").2.hwidLockedAt = some "t9") ∧
    ((loginCore boundUser "pw123456" "HWID-AAA" "t9").1 = .success ∧
      (loginCore boundUser "pw123456" "HWID-AAA" "t9").2.hwid = boundUser.hwid ∧
      (loginCore boundUser "pw123456" "HWID-AAA" "t9").2.hwidLockedAt = boundUser.hwidLockedAt) ∧
    ((loginCore boundUser "pw123456" "HWID-BBB" "t9").1 = .hardwareMismatch ∧
      (loginCore boundUser "pw123456" "HWID-BBB" "t9").2 = boundUser) :=
  ⟨(C1_hwid_binding_state_machine unboundUser "pw123456" "HWID-AAA" "t9"
      rfl (by decide) (by decide)).1 rfl,
   (C1_hwid_binding_state_machine boundUser "pw123456" "HWID-AAA" "t9"
      rfl (by decide) (by decide)).2.1 rfl,
   (C1_hwid_binding_state_machine boundUser "pw123456" "HWID-BBB" "t9"
      rfl (by decide) (by decide)).2.2 "HWID-AAA" rfl (by decide)⟩

/-- With a matching password but a subscription that is absent or not
`"active"`, `loginCore` answers the no-active-license result and returns
the account untouched. -/
theorem loginCore_rejects_inactive (u : User) (pw hw now : String)
    (hpw : u.password = pw)
    (hsub : ∀ sub, u.subscription = some sub → sub.status ≠ "active") :
    loginCore u pw hw now = (.noActiveLicense, u) := by
  subst hpw
  have hact : subIsActive u.subscription = false := by
    cases hu : u.subscription with
    | none => simp [subIsActive]
    | some sub => simp [subIsActive, hsub sub hu]
  simp [loginCore, hact]

/-- C6: with valid credentials, the client login admits only accounts
whose subscription status is exactly `"active"`: when the subscription is
absent or its status is anything else (including `"cancelled"` with a
still-future `currentPeriodEnd`), the login answers the 403
no-active-license result and the account is untouched, so no HWID binding
occurs. -/
theorem C6_login_requires_active_license (u : User) (pw hw now : String)
    (hpw : u.password = pw)
    (hsub : ∀ sub, u.subscription = some sub → sub.status ≠ "active") :
    loginCore u pw hw now = (.noActiveLicense, u) ∧
    statusOf .noActiveLicense = 403 :=
  ⟨loginCore_rejects_inactive u pw hw now hpw hsub, rfl⟩

/-- Concrete instantiation of C6: a cancelled subscription whose
`currentPeriodEnd` is still in the future is rejected before any HWID
processing, even though the presented fingerprint is new. -/
theorem C6_login_requires_active_license_witness :
    loginCore cancelledGraceUser "pw123456" "HWID-NEW" "t9"
      = (.noActiveLicense, cancelledGraceUser) :=
  (C6_login_requires_active_license cancelledGraceUser "pw123456" "HWID-NEW"
    "t9" rfl (by intro sub hsub2; cases hsub2; decide)).1

/-- C8: the `!feature` command fails on an unapproved vouch and leaves it
unchanged, regardless of its current `featured` value; on an approved
vouch it flips the `featured` flag. -/
theorem C8_toggleFeatured_requires_approval (v : Vouch) :
    (v.approved = false →
      toggleFeatured (some v) = (.notApproved, some v)) ∧
    (v.approved = true →
      toggleFeatured (some v)
        = (.toggled (!v.featured), some { v with featured := !v.featured })) := by
  constructor
  · intro hnap
    simp [toggleFeatured, hnap]
  · intro hap
    simp [toggleFeatured, hap]

/-- Concrete instantiation of C8: an unapproved vouch that is (improperly)
already featured is still refused and unchanged, and an approved one is
toggled. -/
theorem C8_toggleFeatured_witness :
    (toggleFeatured (some
        { authorId := "a1", targetUserId := "b2", rating := 5,
          message := "Great service, very fast!", approved := false,
          featured := true })
      = (.notApproved, some
        { authorId := "a1", targetUserId := "b2", rating := 5,
          message := "Great service, very fast!", approved := false,
          featured := true })) ∧
    (toggleFeatured (some
        { authorId := "a1", targetUserId := "b2", rating := 5,
          message := "Great service, very fast!", approved := true,
          featured := false })
      = (.toggled true, some
        { authorId := "a1", targetUserId := "b2", rating := 5,
          message := "Great service, very fast!", approved := true,
          featured := true })) :=
  ⟨(C8_toggleFeatured_requires_approval
      { authorId := "a1", targetUserId := "b2", rating := 5,
        message := "Great service, very fast!", approved := false,
        featured := true }).1 rfl,
   (C8_toggleFeatured_requires_approval
      { authorId := "a1", targetUserId := "b2", rating := 5,
        message := "Great service, very fast!", approved := true,
        featured := false }).2 rfl⟩

/-- C9: the self-service HWID reset demands an active subscription before
anything else it does: when the subscription is absent or its status is
not `"active"`, the request fails with the no-active-subscription answer
and the account is not mutated, whatever the cooldown state. -/
theorem C9_self_reset_requires_active_subscription (u : User) (nowMs : Int)
    (hsub : ∀ sub, u.subscription = some sub → sub.status ≠ "active") :
    selfResetHwid u nowMs = (.noActiveSubscription, u) := by
  cases hu : u.subscription with
  | none => simp [selfResetHwid, hu]
  | some sub =>
    have hne : sub.status ≠ "active" := hsub sub hu
    simp [selfResetHwid, hu, hne]

/-- Concrete instantiation of C9: a freshly signed-up (inactive) account
is refused a self-service HWID reset and left unchanged, even though it
has never used a reset before. -/
theorem C9_self_reset_witness :
    selfResetHwid (createUser "bob" "hunter22" "t0") 1700000000000
      = (.noActiveSubscription, createUser "bob" "hunter22" "t0") :=
  C9_self_reset_requires_active_subscription
    (createUser "bob" "hunter22" "t0") 1700000000000
    (by intro sub hsub2; cases hsub2; decide)

/-- C10: a freshly created account starts unlicensed and unbound: the
part_001 signup stores subscription status `"inactive"` with a null hwid,
the part_002 signup stores status `"none"`, and the license-gated client
login therefore rejects a fresh account with the 403 no-active-license
answer even when the credentials are correct. -/
theorem C10_fresh_account_not_admitted (un pw now em hw t : String) :
    (createUser un pw now).hwid = none ∧
    (createUser un pw now).hwidLockedAt = none ∧
    (createUser un pw now).subscription.map Subscription.status
      = some "inactive" ∧
    (createUserV2 un em pw).subscription.status = "none" ∧
    (createUserV2 un em pw).subscription.status ≠ "active" ∧
    loginCore (createUser un pw now) pw hw t
      = (.noActiveLicense, createUser un pw now) := by
  refine ⟨rfl, rfl, rfl, rfl, by simp [createUserV2], ?_⟩
  exact loginCore_rejects_inactive (createUser un pw now) pw hw t rfl
    (by intro sub hsub2; cases hsub2; decide)

/-- C2: every operation of the system keeps `hwid` non-null exactly when
`hwidLockedAt` is non-null.  Signup creates both null; the login bind sets
both together; the admin reset clears both together; the self-service
reset writes only the `subscription.hwid` / `subscription.lastHwidReset`
paths and leaves the account-level pair untouched; and the webhook
handlers write only subscription fields. -/
theorem C2_hwid_iff_lockedAt_invariant
    (u : User) (un pw hw now st pe : String) (nowMs : Int)
    (sess : CheckoutSession) (retrieved : Option String)
    (hinv : hwidInvariant u) :
    hwidInvariant (createUser un pw now) ∧
    hwidInvariant (loginCore u pw hw now).2 ∧
    hwidInvariant (adminResetHwid u).2 ∧
    hwidInvariant (selfResetHwid u nowMs).2 ∧
    hwidInvariant (applyCheckoutUpdates sess retrieved now u) ∧
    hwidInvariant (applySubscriptionUpdated st pe u) ∧
    hwidInvariant (applySubscriptionDeleted now u) := by
  refine ⟨by simp [hwidInvariant, createUser], ?_, ?_, ?_, ?_, ?_, ?_⟩
  · simp only [loginCore]
    split_ifs <;> simp_all [hwidInvariant]
  · simp only [adminResetHwid]
    split_ifs <;> simp_all [hwidInvariant]
  · cases hu : u.subscription with
    | none => simpa [selfResetHwid, hu] using hinv
    | some sub =>
      simp only [selfResetHwid, hu]
      split_ifs with hst
      · exact hinv
      · cases hr : sub.lastHwidReset with
        | none => simpa [hwidInvariant] using hinv
        | some lastR =>
          by_cases hcd : nowMs - lastR < sevenDaysMs <;>
            simpa [hcd, hwidInvariant] using hinv
  · simpa [applyCheckoutUpdates, hwidInvariant] using hinv
  · simpa [applySubscriptionUpdated, hwidInvariant] using hinv
  · simpa [applySubscriptionDeleted, hwidInvariant] using hinv

/-- Concrete instantiation of C2: the invariant survives a first-use bind,
an admin reset of the bound account, and a self-service reset attempt. -/
theorem C2_hwid_iff_lockedAt_witness :
    hwidInvariant (createUser "bob" "hunter22" "t0") ∧
    hwidInvariant (loginCore unboundUser "pw123456" "HWID-AAA" "t9").2 ∧
    hwidInvariant (adminResetHwid boundUser).2 ∧
    hwidInvariant (selfResetHwid boundUser 1700000000000).2 ∧
    hwidInvariant (applyCheckoutUpdates
      { userId := some "u1", packageType := some "lifetime",
        customer := some "cus_1", subscription := none } none "t3" boundUser) ∧
    hwidInvariant (applySubscriptionUpdated "past_due" "t4" boundUser) ∧
    hwidInvariant (applySubscriptionDeleted "t5" boundUser) := by
  have h1 := C2_hwid_iff_lockedAt_invariant unboundUser "bob" "pw123456"
    "HWID-AAA" "t9" "past_due" "t4" 1700000000000
    { userId := some "u1", packageType := some "lifetime",
      customer := some "cus_1", subscription := none } none (by decide)
  have h2 := C2_hwid_iff_lockedAt_invariant boundUser "bob" "pw123456"
    "HWID-AAA" "t9" "past_due" "t4" 1700000000000
    { userId := some "u1", packageType := some "lifetime",
      customer := some "cus_1", subscription := none } none (by decide)
  exact ⟨h1.1, h1.2.1, h2.2.2.1, h2.2.2.2.1, h2.2.2.2.2.1,
    h2.2.2.2.2.2.1, h2.2.2.2.2.2.2⟩

/-- Applying the checkout-completed update twice to a subscription map
yields the same map as applying it once: every field it writes is an
absolute value independent of the previous subscription state, and the
fields it skips pass through. -/
theorem checkoutSub_idem (sess : CheckoutSession) (retrieved : Option String)
    (now : String) (sub : Subscription) :
    checkoutSub sess retrieved now (checkoutSub sess retrieved now sub)
      = checkoutSub sess retrieved now sub := by
  unfold checkoutSub
  cases hp : sess.packageType == some "lifetime" <;>
    cases hs : strTruthy sess.subscription <;>
      cases retrieved <;> simp [hp, hs]

/-- C3: the checkout-completed handler is idempotent on the targeted
account: applying it twice (same event, same Stripe lookup result, same
clock reading) produces exactly the account produced by applying it once —
no double-activation, every field merely refreshed to the same value. -/
theorem C3_checkout_completed_idempotent (sess : CheckoutSession)
    (retrieved : Option String) (now : String) (u : User) :
    applyCheckoutUpdates sess retrieved now
        (applyCheckoutUpdates sess retrieved now u)
      = applyCheckoutUpdates sess retrieved now u := by
  simp [applyCheckoutUpdates, checkoutSub_idem]

/-- Counterexample to C4 as stated: the cancel route checks only for a
stored external subscription id, never the package, so a lifetime-package
account that kept a subscription id from an earlier monthly purchase is
cancelled successfully and mutated rather than failing. -/
theorem C4_cancel_counterexample :
    lifetimeLeftoverUser.subscription.map Subscription.package
        = some (some "lifetime") ∧
    (cancelSubscription lifetimeLeftoverUser "t5").1 = .ok ∧
    (cancelSubscription lifetimeLeftoverUser "t5").2.subscription.map
        Subscription.status = some "cancelled" ∧
    (cancelSubscription lifetimeLeftoverUser "t5").2 ≠ lifetimeLeftoverUser := by
  refine ⟨rfl, rfl, rfl, ?_⟩
  decide

/-- C4 as amended: cancel fails (with the 400 policy error) and leaves the
account unchanged exactly when no external subscription id is stored —
which covers every lifetime account that honours the data-model invariant
of never carrying one — and whenever a subscription id is present
(e.g. a monthly account) it succeeds, sets the status to `"cancelled"`,
stamps `cancelledAt`, and leaves the package unchanged. -/
theorem C4_cancel_amended (u : User) (now : String) :
    ((∀ sub, u.subscription = some sub →
        strTruthy sub.stripeSubscriptionId = false) →
      cancelSubscription u now = (.noSubscriptionId, u)) ∧
    (∀ sub, u.subscription = some sub →
      strTruthy sub.stripeSubscriptionId = true →
      (cancelSubscription u now).1 = .ok ∧
      (cancelSubscription u now).2.subscription.map Subscription.status
        = some "cancelled" ∧
      (cancelSubscription u now).2.subscription.map Subscription.cancelledAt
        = some (some now) ∧
      (cancelSubscription u now).2.subscription.map Subscription.package
        = u.subscription.map Subscription.package) := by
  constructor
  · intro hno
    cases hu : u.subscription with
    | none => simp [cancelSubscription, hu]
    | some sub => simp [cancelSubscription, hu, hno sub hu]
  · intro sub hu hid
    simp [cancelSubscription, hu, hid]

/-- Concrete instantiation of the amended C4: the clean lifetime account
is refused and unchanged; the monthly account with a subscription id is
cancelled with `cancelledAt` stamped. -/
theorem C4_cancel_amended_witness :
    cancelSubscription lifetimeCleanUser "t5"
        = (.noSubscriptionId, lifetimeCleanUser) ∧
    (cancelSubscription boundUser "t5").1 = .ok ∧
    (cancelSubscription boundUser "t5").2.subscription.map Subscription.status
        = some "cancelled" ∧
    (cancelSubscription boundUser "t5").2.subscription.map
        Subscription.cancelledAt = some (some "t5") := by
  have h1 := (C4_cancel_amended lifetimeCleanUser "t5").1
    (by intro sub hsub2; cases hsub2; decide)
  have h2 := (C4_cancel_amended boundUser "t5").2
    boundSub rfl (by decide)
  exact ⟨h1, h2.1, h2.2.1, h2.2.2.1⟩

/-- C5: a webhook delivery whose signature does not verify against the
shared secret over the raw received bytes is answered with the 400
client-error status and causes no state mutation.  The theorem is
quantified over an arbitrary payload parser, so the rejection is
established before — and independently of — any parsing or dispatch of
the payload. -/
theorem C5_webhook_bad_signature_rejected
    (verify : String → String → String → Bool)
    (parse : String → Option WebhookEvent)
    (raw sig secret : String) (retrieved : Option String) (now : String)
    (store : Store)
    (hfail : verify raw sig secret = false) :
    stripeWebhook verify parse raw sig secret retrieved now store
      = (400, store) := by
  simp [stripeWebhook, constructEvent, hfail]

/-- Concrete instantiation of C5: a failing verifier yields 400 and the
untouched store, for a payload that would otherwise dispatch a
subscription-deleted event against the stored account. -/
theorem C5_webhook_bad_signature_witness :
    stripeWebhook (fun _ _ _ => false)
      (fun _ => some (.customerSubscriptionDeleted "cus_1"))
      "raw-payload" "t=1,v1=deadbeef" "whsec_1" none "t7"
      [("u1", boundUser)]
      = (400, [("u1", boundUser)]) :=
  C5_webhook_bad_signature_rejected (fun _ _ _ => false)
    (fun _ => some (.customerSubscriptionDeleted "cus_1"))
    "raw-payload" "t=1,v1=deadbeef" "whsec_1" none "t7"
    [("u1", boundUser)] rfl

/-- Counterexample to C7 as stated: the username lookup is a Firestore
exact-equality query, so the two spellings of the same name that differ
only in letter case do not return the same account — one finds the stored
user, the other finds nothing. -/
theorem C7_lookup_counterexample :
    jsToLower "Alice" = jsToLower "alice" ∧
    getUserByUsername [("u1", aliceUser)] "Alice" = some ("u1", aliceUser) ∧
    getUserByUsername [("u1", aliceUser)] "alice" = none := by
  refine ⟨by decide, rfl, rfl⟩

/-- C7 as amended: the username lookup is exact-match like every other
lookup — any account it returns carries literally the queried username —
and only the flat-file signup's uniqueness check compares usernames
case-insensitively (it cannot distinguish two usernames that agree after
lower-casing). -/
theorem C7_lookup_exact_match_amended (store : Store) (username uid : String)
    (u : User) (users : List User) (a b : String)
    (hfound : getUserByUsername store username = some (uid, u))
    (hcase : jsToLower a = jsToLower b) :
    u.username = username ∧
    usernameExistsCI users a = usernameExistsCI users b := by
  constructor
  · have hpred := List.find?_some
      (by simpa [getUserByUsername] using hfound)
    simpa [beq_iff_eq] using hpred
  · simp [usernameExistsCI, hcase]

/-- Concrete instantiation of the amended C7: a successful lookup returns
the exactly-matching username, and the signup uniqueness check treats the
two case-variant spellings alike. -/
theorem C7_lookup_exact_match_witness :
    aliceUser.username = "Alice" ∧
    usernameExistsCI [aliceUser] "ALICE" = usernameExistsCI [aliceUser] "alice" :=
  C7_lookup_exact_match_amended [("u1", aliceUser)] "Alice" "u1" aliceUser
    [aliceUser] "ALICE" "alice" rfl (by decide)

end Cursed
